import Mathlib

/-!
Verification of the school ORM (`src/level3.py`, with the level-2 fixture
from `src/level2.py`) against its natural-language specification.

The embedding models the sqlite3 database state reachable through the
schema created by `DatabaseManager._create_tables` and the repository
operations of `StudentRepository`, `CourseRepository` and
`EnrollmentRepository`.  Two facts about the sqlite3 Python binding are
part of the source's semantics and are reflected here:

* the source never executes `PRAGMA foreign_keys = ON`, and sqlite3
  leaves foreign-key enforcement disabled by default, so the
  `FOREIGN KEY ... ON DELETE CASCADE` clauses declared in the DDL are
  inert: dangling references are accepted on INSERT and deletes do not
  cascade;
* `connection.commit()` makes the staged changes durable and
  `connection.rollback()` discards every change staged since the last
  commit; a connection is modelled as the pair of its last committed
  snapshot and its current (possibly uncommitted) state.
-/

namespace SchoolOrm

/-- A row of the `Students` table (`id INTEGER PRIMARY KEY AUTOINCREMENT,
name TEXT NOT NULL, surname TEXT NOT NULL, age INTEGER NOT NULL CHECK
(age > 0), city TEXT NOT NULL`). -/
structure StudentRow where
  id : Nat
  name : String
  surname : String
  age : Int
  city : String
deriving DecidableEq, Repr

/-- A row of the `Courses` table (`id INTEGER PRIMARY KEY AUTOINCREMENT,
name TEXT UNIQUE NOT NULL, time_start TEXT NOT NULL, time_end TEXT NOT
NULL`). -/
structure CourseRow where
  id : Nat
  name : String
  time_start : String
  time_end : String
deriving DecidableEq, Repr

/-- The state of the three tables created by
`DatabaseManager._create_tables` (level3.py 327-358).  Rows are kept in
rowid (insertion) order, which is the order sqlite's full table scans
return them in; `nextStudentId`/`nextCourseId` model the AUTOINCREMENT
counters.  `enrollments` is the `Student_Courses` link table, whose only
enforced constraint is the `(student_id, course_id)` primary key
(foreign keys are declared but never enabled, see the file comment). -/
structure DB where
  students : List StudentRow
  courses : List CourseRow
  enrollments : List (Nat × Nat)
  nextStudentId : Nat
  nextCourseId : Nat
deriving DecidableEq, Repr

/-- A freshly created database, as `_create_tables` leaves it. -/
def DB.empty : DB := ⟨[], [], [], 1, 1⟩

/-- A sqlite3 connection: the last committed snapshot together with the
current state that uncommitted statements have produced. -/
structure Conn where
  committed : DB
  current : DB
deriving DecidableEq, Repr

/-- Models `connection.commit()`: the current state becomes durable. -/
def Conn.commit (c : Conn) : Conn := ⟨c.current, c.current⟩

/-- Models `connection.rollback()`: every change staged since the last
commit is discarded. -/
def Conn.rollback (c : Conn) : Conn := ⟨c.committed, c.committed⟩

/-- Models `sqlite3.connect` on a database in state `db`: nothing is
staged yet. -/
def Conn.openDB (db : DB) : Conn := ⟨db, db⟩

/-- The errors the repository layer can see: `sqlite3.IntegrityError`
from constraint violations, and Python's `ValueError` raised by
`StudentRepository.update` on a student without an id. -/
inductive PyError
  | integrityError
  | valueError
deriving DecidableEq, Repr

/-- The `Student` dataclass (level3.py 21-41): a plain record with an
optional id and default field values.  The dataclass performs no
validation of any kind. -/
structure Student where
  id : Option Nat := none
  name : String := ""
  surname : String := ""
  age : Int := 0
  city : String := ""
deriving DecidableEq, Repr

/-- The `Course` dataclass (level3.py 44-62). -/
structure Course where
  id : Option Nat := none
  name : String := ""
  time_start : String := ""
  time_end : String := ""
deriving DecidableEq, Repr

/-- Models `Student.from_row` (level3.py 33-41) applied to a table row. -/
def StudentRow.toEntity (r : StudentRow) : Student :=
  ⟨some r.id, r.name, r.surname, r.age, r.city⟩

/-- Models `Course.from_row` (level3.py 55-62) applied to a table row. -/
def CourseRow.toEntity (r : CourseRow) : Course :=
  ⟨some r.id, r.name, r.time_start, r.time_end⟩

/-- Embeds `StudentRepository.create` (level3.py 75-82): INSERT the four data
columns, commit, return `cursor.lastrowid`.  The `CHECK (age > 0)`
column constraint makes sqlite raise `IntegrityError` for a non-positive
age; the TEXT columns are `NOT NULL` but Python strings are never NULL,
so no other constraint can fire. -/
def studentCreate (c : Conn) (s : Student) : Except PyError (Nat × Conn) :=
  if s.age ≤ 0 then .error .integrityError
  else
    let i := c.current.nextStudentId
    let row : StudentRow := ⟨i, s.name, s.surname, s.age, s.city⟩
    let db' := { c.current with
      students := c.current.students ++ [row], nextStudentId := i + 1 }
    .ok (i, Conn.commit ⟨c.committed, db'⟩)

/-- Embeds `StudentRepository.get_all` (level3.py 84-88): SELECT * and
materialize every row through `Student.from_row`. -/
def studentGetAll (c : Conn) : List Student :=
  c.current.students.map StudentRow.toEntity

/-- Embeds `StudentRepository.get_by_id` (level3.py 90-94): fetch the first row
with the given id, or `None`. -/
def studentGetById (c : Conn) (i : Nat) : Option Student :=
  (c.current.students.find? (fun r => r.id == i)).map StudentRow.toEntity

/-- Embeds `StudentRepository.update` (level3.py 106-116): `ValueError` when
the entity has no id; otherwise UPDATE the matching row (the
`CHECK (age > 0)` fires as `IntegrityError` when a row is actually
updated with a non-positive age), commit, and return `rowcount > 0`. -/
def studentUpdate (c : Conn) (s : Student) : Except PyError (Bool × Conn) :=
  match s.id with
  | none => .error .valueError
  | some i =>
    let matched := c.current.students.any (fun r => r.id == i)
    if matched && decide (s.age ≤ 0) then .error .integrityError
    else
      let db' := { c.current with
        students := c.current.students.map
          (fun r => if r.id == i then ⟨i, s.name, s.surname, s.age, s.city⟩ else r) }
      .ok (matched, Conn.commit ⟨c.committed, db'⟩)

/-- Embeds `StudentRepository.delete` (level3.py 118-122): DELETE the matching
row, commit, return `rowcount > 0`.  The schema declares
`ON DELETE CASCADE` on `Student_Courses`, but foreign-key enforcement is
never enabled (no `PRAGMA foreign_keys = ON` anywhere in the source), so
sqlite leaves the enrollment rows untouched. -/
def studentDelete (c : Conn) (i : Nat) : Bool × Conn :=
  let matched := c.current.students.any (fun r => r.id == i)
  let db' := { c.current with
    students := c.current.students.filter (fun r => !(r.id == i)) }
  (matched, Conn.commit ⟨c.committed, db'⟩)

/-- Embeds `CourseRepository.create` (level3.py 149-156): INSERT, commit,
return `lastrowid`; the `UNIQUE` constraint on `name` raises
`IntegrityError` when a course of that name exists. -/
def courseCreate (c : Conn) (co : Course) : Except PyError (Nat × Conn) :=
  if c.current.courses.any (fun r => r.name == co.name) then .error .integrityError
  else
    let i := c.current.nextCourseId
    let row : CourseRow := ⟨i, co.name, co.time_start, co.time_end⟩
    let db' := { c.current with
      courses := c.current.courses ++ [row], nextCourseId := i + 1 }
    .ok (i, Conn.commit ⟨c.committed, db'⟩)

/-- Embeds `EnrollmentRepository.enroll` (level3.py 189-199): INSERT the pair
and commit, returning `True`; `sqlite3.IntegrityError` is caught and
`False` returned.  The only enforced constraint on `Student_Courses` is
its `(student_id, course_id)` primary key — foreign keys are never
enabled — so the error case is exactly a duplicate pair, and a pair
referencing nonexistent rows is inserted successfully. -/
def enroll (c : Conn) (sid cid : Nat) : Bool × Conn :=
  if c.current.enrollments.contains (sid, cid) then (false, c)
  else
    let db' := { c.current with
      enrollments := c.current.enrollments ++ [(sid, cid)] }
    (true, Conn.commit ⟨c.committed, db'⟩)

/-- The `{"successful", "already_enrolled", "errors"}` report built by
`EnrollmentRepository.enroll_students_to_course` (level3.py 201-233). -/
structure EnrollReport where
  successful : List Nat
  already_enrolled : List Nat
  errors : List String
deriving DecidableEq, Repr

/-- The per-student loop of `enroll_students_to_course` (level3.py
211-230): for each id, a SELECT checks whether the pair is already
present in the (uncommitted) state — if so the id goes to
`already_enrolled` — otherwise the INSERT runs and the id goes to
`successful`.  Because the pre-check precludes the duplicate-key
`IntegrityError` and foreign keys are not enforced, the INSERT cannot
raise, so the `except` branch filling `errors` is unreachable. -/
def enrollLoop (cid : Nat) : DB → EnrollReport → List Nat → DB × EnrollReport
  | db, rep, [] => (db, rep)
  | db, rep, sid :: rest =>
    if db.enrollments.contains (sid, cid) then
      enrollLoop cid db
        { rep with already_enrolled := rep.already_enrolled ++ [sid] } rest
    else
      enrollLoop cid
        { db with enrollments := db.enrollments ++ [(sid, cid)] }
        { rep with successful := rep.successful ++ [sid] } rest

/-- Embeds `EnrollmentRepository.enroll_students_to_course` (level3.py
201-233): run the loop over the given ids, commit once at the end, and
return the report. -/
def enrollStudentsToCourse (c : Conn) (sids : List Nat) (cid : Nat) :
    EnrollReport × Conn :=
  let (db', rep) := enrollLoop cid c.current ⟨[], [], []⟩ sids
  (rep, Conn.commit ⟨c.committed, db'⟩)

/-- Embeds `EnrollmentRepository.unenroll` (level3.py 235-242): DELETE the rows
matching both ids, commit, return `rowcount > 0`.  The primary key lets
at most one row match. -/
def unenroll (c : Conn) (sid cid : Nat) : Bool × Conn :=
  let matched := c.current.enrollments.contains (sid, cid)
  let db' := { c.current with
    enrollments := c.current.enrollments.filter (fun p => p != (sid, cid)) }
  (matched, Conn.commit ⟨c.committed, db'⟩)

/-- Embeds `EnrollmentRepository.get_students_on_course` (level3.py 244-255):
`SELECT s.* FROM Students s JOIN Student_Courses sc ON s.id =
sc.student_id JOIN Courses c ON sc.course_id = c.id WHERE c.name = ?`.
The statement has no ORDER BY; sqlite plans it with the unique index on
`Courses.name`, an outer scan of `Students` in rowid order, and for each
student a probe of the covering `(student_id, course_id)` primary-key
index of `Student_Courses`, so the emitted rows follow the `Students`
scan — ascending student primary key — with one row per matching
(enrollment, course) pair. -/
def getStudentsOnCourse (c : Conn) (courseName : String) : List Student :=
  c.current.students.flatMap (fun s =>
    (c.current.enrollments.filter (fun p => p.1 == s.id)).flatMap (fun p =>
      (c.current.courses.filter
        (fun co => co.id == p.2 && co.name == courseName)).map
        (fun _ => s.toEntity)))

/-- Embeds `EnrollmentRepository.get_students_on_course_from_city` (level3.py
257-268): the same join with the extra condition `s.city = ?`, planned
the same way, the city condition filtering the `Students` scan. -/
def getStudentsOnCourseFromCity (c : Conn) (courseName city : String) :
    List Student :=
  c.current.students.flatMap (fun s =>
    if s.city == city then
      (c.current.enrollments.filter (fun p => p.1 == s.id)).flatMap (fun p =>
        (c.current.courses.filter
          (fun co => co.id == p.2 && co.name == courseName)).map
          (fun _ => s.toEntity))
    else [])

/-- Embeds `DatabaseManager.__exit__` (level3.py 319-325): when the body of the
`with` block finished normally the connection is committed; when it
raised, the connection is rolled back and — the method returning
`None` — the same exception propagates to the caller. -/
def runScope {α : Type} (c : Conn) (body : Conn → Except PyError α × Conn) :
    Except PyError α × Conn :=
  match body c with
  | (.ok a, c') => (.ok a, Conn.commit c')
  | (.error e, c') => (.error e, Conn.rollback c')

/-- Modelled from the spec: the composite Service operation
`create_student_with_enrollment` (spec §4.3: "insert a Student, then
enroll it on a given course id, as one unit; if the enrollment step
fails ... the student insertion is also undone") is absent from the
source — `SchoolService` (level3.py 287-299) only exposes the two count
methods.  Following the spec's words, it runs the student create and
then the enroll for the fresh id inside one transaction scope, treating
a failed enroll as an error that aborts the unit of work; the repository
operations themselves are the source embeddings above. -/
def createStudentWithEnrollment (c : Conn) (s : Student) (cid : Nat) :
    Except PyError Nat × Conn :=
  runScope c (fun c0 =>
    match studentCreate c0 s with
    | .error e => (.error e, c0)
    | .ok (sid, c1) =>
      let (ok, c2) := enroll c1 sid cid
      if ok then (.ok sid, c2) else (.error .integrityError, c2))

/-- The fixture installed by `SchoolSystem.add_level2_data`
(src/level2.py 293-353): courses python (id 1) and java (id 2);
students Max/Spb (id 1), John/Spb (id 2), Andy/Manchester (id 3),
Kate/Spb (id 4); enrollments inserted in the order (1,1), (2,1), (3,1),
(4,2). -/
def dbFixture : DB :=
  ⟨[⟨1, "Max", "Brooks", 24, "Spb"⟩, ⟨2, "John", "Stones", 15, "Spb"⟩,
    ⟨3, "Andy", "Wings", 45, "Manchester"⟩, ⟨4, "Kate", "Brooks", 34, "Spb"⟩],
   [⟨1, "python", "21.07.21", "21.08.21"⟩, ⟨2, "java", "13.07.21", "16.08.21"⟩],
   [(1, 1), (2, 1), (3, 1), (4, 2)], 5, 3⟩

/-- A state with one student enrolled on one course, used as the input
on which the cascade behaviour of `delete` is observed. -/
def db4 : DB :=
  ⟨[⟨1, "Max", "Brooks", 24, "Spb"⟩],
   [⟨1, "python", "21.07.21", "21.08.21"⟩], [(1, 1)], 2, 2⟩

/-- A state with students 1 and 2 and course 1 but no enrollments and
no student 999, the bulk-enroll scenario of spec §8. -/
def db5 : DB :=
  ⟨[⟨1, "Max", "Brooks", 24, "Spb"⟩, ⟨2, "John", "Stones", 15, "Spb"⟩],
   [⟨1, "python", "21.07.21", "21.08.21"⟩], [], 3, 2⟩

/-- A pair with one enrollment, used to settle a state with students 1
and 2 and course 1 where only (1, 1) is enrolled. -/
def db2e : DB :=
  ⟨[⟨1, "Max", "Brooks", 24, "Spb"⟩, ⟨2, "John", "Stones", 15, "Spb"⟩],
   [⟨1, "python", "21.07.21", "21.08.21"⟩], [(1, 1)], 3, 2⟩

/-- The field invariants of spec §3 for a Student: positive age (the
lax variant of the bounded range) and name/surname/city non-empty after
trimming.  The source defines no such check; the predicate is stated
here only so that theorems can speak about it. -/
def studentFieldInvariants (s : Student) : Prop :=
  0 < s.age ∧ s.name.trim ≠ "" ∧ s.surname.trim ≠ "" ∧ s.city.trim ≠ ""

/-- Sorted-by-primary-key predicate on a query result, the ordering
spec §4.2 asks the join queries to guarantee. -/
def orderedByPk (l : List Student) : Prop :=
  List.Pairwise (fun a b => a.id.getD 0 ≤ b.id.getD 0) l

/-- Discriminates the success case of a repository call that can raise. -/
def isOkE {ε α : Type} : Except ε α → Bool
  | .ok _ => true
  | .error _ => false

/-- A transaction-scope body that first calls the repository create for
Max and then raises `ValueError`, modelling a unit of work whose later
step fails after an earlier successful write. -/
def bodyCreateThenFail (c : Conn) : Except PyError Nat × Conn :=
  match studentCreate c ⟨none, "Max", "Brooks", 24, "Spb"⟩ with
  | .ok (_, c') => (.error .valueError, c')
  | .error e => (.error e, c)

/-! Theorems settling the claims. -/

/-- C1, counterexample: the claim says repository writes stage their
change without committing and a failed unit of work leaves no partial
effect visible to subsequent reads.  On the code this is false:
`StudentRepository.create` calls `self.db.commit()` (level3.py 81), so
after a scope whose body created Max and then raised, the rolled-back
connection still shows the created row to reads — even though the same
error was indeed re-raised. -/
theorem C1_counterexample :
    (runScope (Conn.openDB DB.empty) bodyCreateThenFail).1 =
      .error .valueError ∧
    studentGetAll (runScope (Conn.openDB DB.empty) bodyCreateThenFail).2 =
      [⟨some 1, "Max", "Brooks", 24, "Spb"⟩] :=
  ⟨rfl, rfl⟩

/-- C1, amended: when the body of a transaction scope raises,
`DatabaseManager.__exit__` rolls the connection back to its last
committed snapshot and the same error propagates; but every repository
write commits any change it stages immediately — `create` and `update`
on success, `delete` always, and `enroll` either commits its insert or
(duplicate pair) returns the connection untouched — so only changes
staged since the last commit are undone and effects committed earlier in
the failed unit of work remain visible. -/
theorem C1_amended :
    (∀ (c : Conn) (body : Conn → Except PyError Nat × Conn) (e : PyError)
        (c' : Conn), body c = (.error e, c') →
        runScope c body = (.error e, Conn.rollback c')) ∧
    (∀ (c : Conn) (s : Student) (i : Nat) (c' : Conn),
        studentCreate c s = .ok (i, c') → c'.committed = c'.current) ∧
    (∀ (c : Conn) (s : Student) (b : Bool) (c' : Conn),
        studentUpdate c s = .ok (b, c') → c'.committed = c'.current) ∧
    (∀ (c : Conn) (i : Nat),
        (studentDelete c i).2.committed = (studentDelete c i).2.current) ∧
    (∀ (c : Conn) (sid cid : Nat),
        (enroll c sid cid).2.committed = (enroll c sid cid).2.current ∨
        (enroll c sid cid).2 = c) := by
  refine ⟨?_, ?_, ?_, ?_, ?_⟩
  · intro c body e c' h
    simp [runScope, h]
  · intro c s i c' h
    by_cases hage : s.age ≤ 0
    · simp [studentCreate, hage] at h
    · simp [studentCreate, hage] at h
      obtain ⟨-, rfl⟩ := h
      rfl
  · intro c s b c' h
    cases hid : s.id with
    | none => simp [studentUpdate, hid] at h
    | some i =>
      by_cases hcond : (c.current.students.any (fun r => r.id == i) &&
          decide (s.age ≤ 0)) = true
      · simp only [studentUpdate, hid, hcond, if_true] at h
        cases h
      · simp only [studentUpdate, hid] at h
        rw [if_neg hcond] at h
        cases h
        rfl
  · intro c i
    rfl
  · intro c sid cid
    by_cases hmem : (sid, cid) ∈ c.current.enrollments
    · right
      simp [enroll, hmem]
    · left
      simp [enroll, hmem, Conn.commit]

/-- C1, witness: the hypothesis-bearing parts of the amended statement —
scope rollback-and-propagate, create commits, update commits — applied
at concrete inputs. -/
theorem C1_amended_witness :
    runScope (Conn.openDB DB.empty)
        (fun c => (Except.error (α := Nat) PyError.valueError, c)) =
      (.error .valueError, Conn.rollback (Conn.openDB DB.empty)) ∧
    (Conn.commit ⟨DB.empty, ⟨[⟨1, "Max", "Brooks", 24, "Spb"⟩], [], [], 2, 1⟩⟩).committed =
      (Conn.commit ⟨DB.empty, ⟨[⟨1, "Max", "Brooks", 24, "Spb"⟩], [], [], 2, 1⟩⟩).current ∧
    (Conn.commit ⟨db4, { db4 with
        students := [⟨1, "Max", "Brooks", 25, "Spb"⟩] }⟩).committed =
      (Conn.commit ⟨db4, { db4 with
        students := [⟨1, "Max", "Brooks", 25, "Spb"⟩] }⟩).current :=
  ⟨C1_amended.1 _ _ _ _ rfl,
   C1_amended.2.1 (Conn.openDB DB.empty) ⟨none, "Max", "Brooks", 24, "Spb"⟩ 1 _ rfl,
   C1_amended.2.2.1 (Conn.openDB db4) ⟨some 1, "Max", "Brooks", 25, "Spb"⟩ true _ rfl⟩

/-- C4: deleting student 1 returns True and removes the Student row, but
the enrollment row (1, 1) survives and now references a nonexistent
student: the declared ON DELETE CASCADE never runs because the source
never enables foreign-key enforcement.  This evaluates the code at the
failing input of the cascade claim. -/
theorem C4_delete_does_not_cascade :
    (studentDelete (Conn.openDB db4) 1).1 = true ∧
    (studentDelete (Conn.openDB db4) 1).2.current.students = [] ∧
    (studentDelete (Conn.openDB db4) 1).2.current.enrollments = [(1, 1)] :=
  ⟨rfl, rfl, rfl⟩

/-- C5: bulk-enrolling [1, 2, 999] (999 nonexistent) onto course 1 does
not report 999 as an error — the INSERT for 999 succeeds because foreign
keys are not enforced, so the report is successful = [1, 2, 999] with
empty errors, and a dangling row (999, 1) is committed.  This evaluates
the code at the failing input of the bulk-enroll claim. -/
theorem C5_bulk_enroll_missing_student_not_reported :
    enrollStudentsToCourse (Conn.openDB db5) [1, 2, 999] 1 =
      (⟨[1, 2, 999], [], []⟩,
       Conn.openDB { db5 with enrollments := [(1, 1), (2, 1), (999, 1)] }) :=
  rfl

/-- C2, counterexample: with (1, 1) already enrolled, a second `enroll`
returns `False` instead of raising `DuplicateEnrollmentError` (no such
class exists in the source), and `enroll` of the nonexistent student 999
returns `True` and inserts a dangling row instead of raising
`DanglingReferenceError`, because foreign keys are never enforced. -/
theorem C2_counterexample :
    enroll (Conn.openDB db2e) 1 1 = (false, Conn.openDB db2e) ∧
    (enroll (Conn.openDB db2e) 999 1).1 = true ∧
    (999, 1) ∈ (enroll (Conn.openDB db2e) 999 1).2.current.enrollments := by
  refine ⟨rfl, rfl, ?_⟩
  decide

/-- C2, amended: `enroll` signals an already-enrolled pair by returning
`False` and leaving the connection unchanged (so no duplicate row ever
appears), and for any pair not yet present — including pairs whose
student or course id references no existing row — it inserts the pair
and commits, returning `True`; no error of any kind reaches the
caller. -/
theorem C2_amended (c : Conn) (sid cid : Nat) :
    ((sid, cid) ∈ c.current.enrollments → enroll c sid cid = (false, c)) ∧
    ((sid, cid) ∉ c.current.enrollments →
      enroll c sid cid = (true, Conn.commit ⟨c.committed,
        { c.current with
          enrollments := c.current.enrollments ++ [(sid, cid)] }⟩)) := by
  constructor
  · intro hmem
    simp [enroll, hmem]
  · intro hmem
    simp [enroll, hmem]

/-- C2, witness: both halves of the amended statement applied to the
concrete state `db2e`. -/
theorem C2_amended_witness :
    enroll (Conn.openDB db2e) 1 1 = (false, Conn.openDB db2e) ∧
    enroll (Conn.openDB db2e) 2 1 =
      (true, Conn.commit ⟨db2e, { db2e with enrollments := [(1, 1), (2, 1)] }⟩) := by
  constructor
  · exact (C2_amended (Conn.openDB db2e) 1 1).1 (by decide)
  · exact (C2_amended (Conn.openDB db2e) 2 1).2 (by decide)

/-- C3, counterexample: running the spec-modelled composite
`create_student_with_enrollment` on an empty database with course id 1
(which does not exist) succeeds instead of raising
`DanglingReferenceError`: the Student row is left behind, fully
committed, together with a dangling enrollment row — the source's
`create` commits immediately and its `enroll` accepts unknown course
ids. -/
theorem C3_counterexample :
    (createStudentWithEnrollment (Conn.openDB DB.empty)
        ⟨none, "Max", "Brooks", 24, "Spb"⟩ 1).1 = .ok 1 ∧
    (createStudentWithEnrollment (Conn.openDB DB.empty)
        ⟨none, "Max", "Brooks", 24, "Spb"⟩ 1).2.committed.students =
      [⟨1, "Max", "Brooks", 24, "Spb"⟩] ∧
    (createStudentWithEnrollment (Conn.openDB DB.empty)
        ⟨none, "Max", "Brooks", 24, "Spb"⟩ 1).2.committed.enrollments = [(1, 1)] :=
  ⟨rfl, rfl, rfl⟩

/-- C3, amended: for any valid student input the spec-modelled composite
commits the Student row unconditionally, whatever course id is given.
When the fresh student id is not already paired with the course id — in
particular whenever the course id does not exist and no dangling row
anticipates the pair — the composite also commits a dangling enrollment
row and returns the new id, raising nothing; in the residual case (the
pair already present as a dangling row) it raises `IntegrityError` and
the rollback only reaches the last commit, so the Student row persists.
In no case is `DanglingReferenceError` raised (the source defines no
such class) and in no case is the student insertion undone. -/
theorem C3_amended (c : Conn) (s : Student) (cid : Nat) (hage : 0 < s.age) :
    (createStudentWithEnrollment c s cid).2.committed.students =
      c.current.students ++
        [⟨c.current.nextStudentId, s.name, s.surname, s.age, s.city⟩] ∧
    ((c.current.nextStudentId, cid) ∉ c.current.enrollments →
      createStudentWithEnrollment c s cid =
        (.ok c.current.nextStudentId,
         Conn.openDB { c.current with
           students := c.current.students ++
             [⟨c.current.nextStudentId, s.name, s.surname, s.age, s.city⟩],
           nextStudentId := c.current.nextStudentId + 1,
           enrollments := c.current.enrollments ++
             [(c.current.nextStudentId, cid)] })) ∧
    ((c.current.nextStudentId, cid) ∈ c.current.enrollments →
      createStudentWithEnrollment c s cid =
        (.error .integrityError,
         Conn.openDB { c.current with
           students := c.current.students ++
             [⟨c.current.nextStudentId, s.name, s.surname, s.age, s.city⟩],
           nextStudentId := c.current.nextStudentId + 1 })) := by
  have hage' : ¬ s.age ≤ 0 := by omega
  by_cases hmem : (c.current.nextStudentId, cid) ∈ c.current.enrollments
  · refine ⟨?_, fun hn => absurd hmem hn, fun _ => ?_⟩
    · simp [createStudentWithEnrollment, runScope, studentCreate, hage',
        enroll, Conn.commit, Conn.rollback, Conn.openDB, hmem]
    · simp [createStudentWithEnrollment, runScope, studentCreate, hage',
        enroll, Conn.commit, Conn.rollback, Conn.openDB, hmem]
  · refine ⟨?_, fun _ => ?_, fun hn => absurd hn hmem⟩
    · simp [createStudentWithEnrollment, runScope, studentCreate, hage',
        enroll, Conn.commit, Conn.rollback, Conn.openDB, hmem]
    · simp [createStudentWithEnrollment, runScope, studentCreate, hage',
        enroll, Conn.commit, Conn.rollback, Conn.openDB, hmem]

/-- C3, witness: the amended statement applied twice — on the empty
database with the nonexistent course id 7 (fresh-pair case), and on a
state already holding the dangling pair (1, 7) (residual case); both
hypotheses are discharged concretely and in both runs the committed
Student row persists. -/
theorem C3_amended_witness :
    createStudentWithEnrollment (Conn.openDB DB.empty)
        ⟨none, "Kate", "Brooks", 34, "Spb"⟩ 7 =
      (.ok 1, Conn.openDB ⟨[⟨1, "Kate", "Brooks", 34, "Spb"⟩], [], [(1, 7)], 2, 1⟩) ∧
    createStudentWithEnrollment (Conn.openDB ⟨[], [], [(1, 7)], 1, 1⟩)
        ⟨none, "Kate", "Brooks", 34, "Spb"⟩ 7 =
      (.error .integrityError,
       Conn.openDB ⟨[⟨1, "Kate", "Brooks", 34, "Spb"⟩], [], [(1, 7)], 2, 1⟩) :=
  ⟨(C3_amended (Conn.openDB DB.empty) ⟨none, "Kate", "Brooks", 34, "Spb"⟩ 7
      (by decide)).2.1 (by decide),
   (C3_amended (Conn.openDB ⟨[], [], [(1, 7)], 1, 1⟩)
      ⟨none, "Kate", "Brooks", 34, "Spb"⟩ 7 (by decide)).2.2 (by decide)⟩

/-- Every row the inner loops of the join queries emit while the outer
scan is on student `s` is `s`'s own entity: the enrollment-index probe
and the course lookup only decide how many copies are emitted. -/
theorem emit_eq_toEntity (c : Conn) (courseName : String) (s : StudentRow)
    (x : Student)
    (hx : x ∈ (c.current.enrollments.filter (fun p => p.1 == s.id)).flatMap
      (fun p => (c.current.courses.filter
        (fun co => co.id == p.2 && co.name == courseName)).map
        (fun _ => s.toEntity))) : x = s.toEntity := by
  simp only [List.mem_flatMap, List.mem_map] at hx
  obtain ⟨p, -, -, -, h⟩ := hx
  exact h.symm

/-- A list all of whose elements are one fixed student is trivially in
ascending primary-key order. -/
theorem pairwise_of_const (l : List Student) (a : Student)
    (h : ∀ x ∈ l, x = a) :
    List.Pairwise (fun x y : Student => x.id.getD 0 ≤ y.id.getD 0) l := by
  induction l with
  | nil => simp
  | cons y ys ih =>
    rw [List.pairwise_cons]
    constructor
    · intro b hb
      rw [h y (by simp), h b (by simp [hb])]
    · exact ih (fun x hx => h x (by simp [hx]))

/-- A join whose groups each emit copies of the owning student's entity
returns rows in ascending primary-key order whenever the outer scan
is in ascending primary-key order. -/
theorem pairwise_flatMap_emit (l : List StudentRow)
    (f : StudentRow → List Student)
    (hf : ∀ s x, x ∈ f s → x = s.toEntity)
    (hl : List.Pairwise (fun a b => a.id < b.id) l) :
    List.Pairwise (fun a b : Student => a.id.getD 0 ≤ b.id.getD 0)
      (l.flatMap f) := by
  induction l with
  | nil => simp
  | cons s rest ih =>
    rw [List.flatMap_cons, List.pairwise_append]
    have hcons := List.pairwise_cons.mp hl
    refine ⟨pairwise_of_const _ s.toEntity (fun x hx => hf s x hx),
            ih hcons.2, ?_⟩
    intro x hx y hy
    rw [hf s x hx]
    simp only [List.mem_flatMap] at hy
    obtain ⟨t, ht, hyt⟩ := hy
    rw [hf t y hyt]
    exact Nat.le_of_lt (hcons.1 t ht)

/-- C6: over the level-2 fixture the python course filtered by city Spb
returns exactly Max and John; and on every state whose Students table is
in ascending primary-key order (every reachable state is: rowids
ascend), the join-based filter queries — students on a named course,
with or without the city filter — return their rows in ascending
owning-table primary-key order, for every choice of filter values. -/
theorem C6_join_queries_ordered :
    getStudentsOnCourseFromCity (Conn.openDB dbFixture) "python" "Spb" =
      [⟨some 1, "Max", "Brooks", 24, "Spb"⟩,
       ⟨some 2, "John", "Stones", 15, "Spb"⟩] ∧
    ∀ (c : Conn) (n city : String),
      List.Pairwise (fun a b => a.id < b.id) c.current.students →
      orderedByPk (getStudentsOnCourse c n) ∧
      orderedByPk (getStudentsOnCourseFromCity c n city) := by
  refine ⟨rfl, ?_⟩
  intro c n city hsorted
  constructor
  · unfold orderedByPk getStudentsOnCourse
    exact pairwise_flatMap_emit _ _
      (fun s x hx => emit_eq_toEntity c n s x hx) hsorted
  · unfold orderedByPk getStudentsOnCourseFromCity
    refine pairwise_flatMap_emit _ _ (fun s x hx => ?_) hsorted
    by_cases hc : (s.city == city) = true
    · rw [if_pos hc] at hx
      exact emit_eq_toEntity c n s x hx
    · rw [if_neg hc] at hx
      simp at hx

/-- C6, witness: the ordering half applied to the fixture state, whose
Students table is in ascending primary-key order. -/
theorem C6_join_queries_ordered_witness :
    orderedByPk (getStudentsOnCourse (Conn.openDB dbFixture) "python") ∧
    orderedByPk (getStudentsOnCourseFromCity
      (Conn.openDB dbFixture) "python" "Spb") :=
  C6_join_queries_ordered.2 (Conn.openDB dbFixture) "python" "Spb" (by decide)

/-- C7: on any connection whose student ids are all below the
AUTOINCREMENT counter (every reachable state satisfies this) and any
valid student (positive age, so the storage CHECK passes), `create`
followed by `get_by_id` on the returned id yields exactly the input
entity with the storage-assigned id. -/
theorem C7_roundtrip (c : Conn) (s : Student)
    (hwf : ∀ r ∈ c.current.students, r.id < c.current.nextStudentId)
    (hage : 0 < s.age) :
    ∃ c', studentCreate c s = .ok (c.current.nextStudentId, c') ∧
      studentGetById c' c.current.nextStudentId =
        some { s with id := some c.current.nextStudentId } := by
  have hage' : ¬ s.age ≤ 0 := by omega
  refine ⟨Conn.commit ⟨c.committed, { c.current with
      students := c.current.students ++
        [⟨c.current.nextStudentId, s.name, s.surname, s.age, s.city⟩],
      nextStudentId := c.current.nextStudentId + 1 }⟩, ?_, ?_⟩
  · simp [studentCreate, hage']
  · have h1 : c.current.students.find?
        (fun r => r.id == c.current.nextStudentId) = none := by
      rw [List.find?_eq_none]
      intro r hr
      simp only [beq_iff_eq]
      exact Nat.ne_of_lt (hwf r hr)
    simp [studentGetById, Conn.commit, List.find?_append, h1,
      List.find?_cons, StudentRow.toEntity]

/-- C7, witness: the round-trip applied to Kate on a fresh database. -/
theorem C7_roundtrip_witness :
    ∃ c', studentCreate (Conn.openDB DB.empty)
        ⟨none, "Kate", "Brooks", 34, "Spb"⟩ = .ok (1, c') ∧
      studentGetById c' 1 = some ⟨some 1, "Kate", "Brooks", 34, "Spb"⟩ :=
  C7_roundtrip (Conn.openDB DB.empty) ⟨none, "Kate", "Brooks", 34, "Spb"⟩
    (by simp [Conn.openDB, DB.empty]) (by decide)

/-- C8, counterexample: the `Student` dataclass performs no validation,
so a Student with an empty name, empty surname, empty city and age 0 is
constructed successfully — no `ValidationError` exists in the source —
and a successfully constructed value need not satisfy the field
invariants of spec §3. -/
theorem C8_counterexample :
    ¬ studentFieldInvariants { name := "", surname := "", age := 0, city := "" } := by
  unfold studentFieldInvariants
  decide

/-- C8, amended: construction of a Student always succeeds and stores
exactly the given field values (no validation happens at construction
time); the only field invariant the system enforces is the storage-level
CHECK, which makes `create` fail exactly for a non-positive age. -/
theorem C8_amended (i : Option Nat) (n sn : String) (a : Int) (ci : String)
    (c : Conn) :
    (Student.mk i n sn a ci).name = n ∧ (Student.mk i n sn a ci).surname = sn ∧
    (Student.mk i n sn a ci).age = a ∧ (Student.mk i n sn a ci).city = ci ∧
    (isOkE (studentCreate c (Student.mk i n sn a ci)) = true ↔ 0 < a) := by
  refine ⟨rfl, rfl, rfl, rfl, ?_⟩
  by_cases h : a ≤ 0
  · simp [studentCreate, h, isOkE]
  · simp [studentCreate, h, isOkE]
    omega

/-- C9, counterexample: updating a student whose id matches no row does
not raise `NotFoundError` (no such class exists in the source):
`StudentRepository.update` runs the UPDATE, commits, and returns
`False` because `rowcount` is zero. -/
theorem C9_counterexample :
    studentUpdate (Conn.openDB DB.empty) ⟨some 5, "Max", "Brooks", 24, "Spb"⟩ =
      .ok (false, Conn.openDB DB.empty) :=
  rfl

/-- C9, amended: for a student carrying an id that matches no row,
`update` signals the absence by returning `False` after committing the
no-op UPDATE; it raises `ValueError` only when the entity has no id at
all. -/
theorem C9_amended (c : Conn) (s : Student) (i : Nat) (hid : s.id = some i)
    (habs : ∀ r ∈ c.current.students, r.id ≠ i) :
    studentUpdate c s = .ok (false, Conn.commit c) := by
  have hany : c.current.students.any (fun r => r.id == i) = false := by
    rw [List.any_eq_false]
    intro r hr
    simp only [beq_iff_eq]
    exact habs r hr
  have hmap : c.current.students.map
      (fun r => if r.id = i
        then (⟨i, s.name, s.surname, s.age, s.city⟩ : StudentRow) else r) =
      c.current.students := by
    conv_rhs => rw [← List.map_id c.current.students]
    apply List.map_congr_left
    intro r hr
    simp [habs r hr]
  simp [studentUpdate, hid, hany, hmap]

/-- C9, witness: the amended statement applied to an absent id on the
empty database. -/
theorem C9_amended_witness :
    studentUpdate (Conn.openDB DB.empty) ⟨some 5, "Kate", "Brooks", 34, "Spb"⟩ =
      .ok (false, Conn.commit (Conn.openDB DB.empty)) :=
  C9_amended (Conn.openDB DB.empty) ⟨some 5, "Kate", "Brooks", 34, "Spb"⟩ 5
    rfl (by simp [Conn.openDB, DB.empty])

/-- C10: `unenroll` never raises (it is a total function into
`Bool × Conn`); on any state whose enrollment table satisfies the
primary-key uniqueness invariant it returns `True` exactly when the pair
was enrolled, removes at most that single row (the DELETE is an erase of
the pair), and when the pair was not enrolled it leaves the current
state — in particular the enrollment table — unchanged. -/
theorem C10_unenroll (c : Conn) (sid cid : Nat)
    (h : c.current.enrollments.Nodup) :
    ((unenroll c sid cid).1 = true ↔ (sid, cid) ∈ c.current.enrollments) ∧
    (unenroll c sid cid).2.current.enrollments =
      c.current.enrollments.erase (sid, cid) ∧
    ((sid, cid) ∉ c.current.enrollments →
      (unenroll c sid cid).2.current = c.current) := by
  refine ⟨?_, ?_, ?_⟩
  · simp [unenroll]
  · show (Conn.commit ⟨c.committed, { c.current with
        enrollments := c.current.enrollments.filter
          (fun p => p != (sid, cid)) }⟩).current.enrollments =
      c.current.enrollments.erase (sid, cid)
    rw [h.erase_eq_filter]
    rfl
  · intro hmem
    have hfil : c.current.enrollments.filter
        (fun p => p != (sid, cid)) = c.current.enrollments := by
      rw [List.filter_eq_self]
      intro p hp
      simp only [bne_iff_ne, ne_eq]
      rintro rfl
      exact hmem hp
    show (Conn.commit ⟨c.committed, { c.current with
        enrollments := c.current.enrollments.filter
          (fun p => p != (sid, cid)) }⟩).current = c.current
    rw [hfil]
    rfl

/-- C10, witness: the statement applied to the fixture, once for the
enrolled pair (4, 2) implicitly via the erase equation and once for the
never-enrolled pair via the unchanged-state implication. -/
theorem C10_unenroll_witness :
    (((unenroll (Conn.openDB dbFixture) 4 2).1 = true ↔
        (4, 2) ∈ dbFixture.enrollments) ∧
      (unenroll (Conn.openDB dbFixture) 4 2).2.current.enrollments =
        dbFixture.enrollments.erase (4, 2) ∧
      ((4, 2) ∉ dbFixture.enrollments →
        (unenroll (Conn.openDB dbFixture) 4 2).2.current = dbFixture)) :=
  C10_unenroll (Conn.openDB dbFixture) 4 2 (by decide)

end SchoolOrm
